import Mathlib

/-!
Verification of the wampy WAMP client message dispatcher and session
teardown, shallowly embedded from `wampy/peer.py` (the monolithic `Peer`
class) and `wampy/peers/clients.py` (the `Client` class).

Inbound WAMP messages arrive as decoded JSON arrays; the Python code
handles them by positional tuple unpacking (which raises `ValueError`
on a length mismatch), dictionary lookups on the process-wide `Registry`
maps (which raise `KeyError` on an unknown key), and `getattr` on the
peer instance (which raises `AttributeError` on a missing name).  The
embedding models a message as a list of `PyVal` fields and threads the
exception behaviour through `Except PyExc`.
-/

namespace Wampy

/-- Scalar payload values carried inside WAMP argument lists and
keyword dictionaries. -/
inductive Val where
  | int : Int → Val
  | str : String → Val
deriving DecidableEq, Repr

/-- One field of a decoded wire message, as the Python code receives it:
an integer (message codes, request ids, registration and subscription
ids), a string, a list of scalars (positional arguments), or a string-keyed
dictionary of scalars (keyword arguments, details). -/
inductive PyVal where
  | int : Int → PyVal
  | str : String → PyVal
  | vlist : List Val → PyVal
  | vdict : List (String × Val) → PyVal
deriving DecidableEq, Repr

/-- A decoded inbound message: `frame.payload` in `peer.py`. -/
abbrev RawMessage := List PyVal

/-- Exceptions the embedded code paths can raise.  `userExc` stands for
an exception raised by an application-level procedure or event handler;
`wampError` is wampy.exceptions.WampError, `wampyError` is
wampy.errors.WampyError and `welcomeAborted` is
wampy.errors.WelcomeAbortedError. -/
inductive PyExc where
  | systemExit
  | keyboardInterrupt
  | valueError
  | keyError
  | typeError
  | indexError
  | attributeError
  | assertionError
  | wampError : String → PyExc
  | wampyError : String → PyExc
  | welcomeAborted : String → PyExc
  | userExc : String → PyExc
deriving DecidableEq, Repr

/- The WAMP message codes the dispatcher compares against, as given by
the numeric comments in `Peer._handle_message` (WELCOME=2, GOODBYE=6,
RESULT=50, REGISTERED=64, INVOCATION=68) and the standard WAMP
assignment for the remaining codes the dispatcher names (ERROR=8,
SUBSCRIBED=33, EVENT=36). -/
namespace Message

def WELCOME : Int := 2

def GOODBYE : Int := 6

def ERROR : Int := 8

def SUBSCRIBED : Int := 33

def EVENT : Int := 36

def RESULT : Int := 50

def REGISTERED : Int := 64

def INVOCATION : Int := 68

end Message

/-- The owning entity of a pending request or a registration: the Python
code stores the client class object; the embedding stores its name. -/
abbrev Owner := String

/-- An association list standing for one Python dictionary of the
`Registry`, keyed by the identifier the Router sent. -/
abbrev RegMap := List (PyVal × Owner × String)

/-- Lookup in a `Registry` dictionary: first binding for the key wins.
Returns `none` where Python would raise `KeyError`. -/
def mapLookup (m : RegMap) (k : PyVal) : Option (Owner × String) :=
  match m with
  | [] => none
  | (k2, v) :: rest => if k2 = k then some v else mapLookup rest k

/-- Dictionary assignment `m[k] = v`: any previous binding of `k` is
replaced. -/
def mapInsert (m : RegMap) (k : PyVal) (v : Owner × String) : RegMap :=
  (k, v) :: m.filter (fun e => ¬ e.1 = k)

/-- The process-wide correlation maps of `wampy/registry.py` that
`Peer._handle_message` reads and writes: pending request ids, granted
registration ids and granted subscription ids, each mapped to an
(owner, procedure or handler name) pair. -/
structure Registry where
  request_map : RegMap
  registration_map : RegMap
  subscription_map : RegMap
deriving DecidableEq, Repr

/-- A locally registered procedure or event handler.  It receives the
positional and keyword arguments of the INVOCATION or EVENT and either
returns one value or raises. -/
abbrev Entrypoint := List Val → List (String × Val) → Except PyExc Val

/-- Resolution of `getattr(self, name)` on the peer: the table of
callables the peer instance exposes.  `none` is Python `AttributeError`. -/
abbrev Entrypoints := String → Option Entrypoint

/-- The only message kind `_handle_message` itself sends: the `Yield`
reply to an INVOCATION, carrying the request id and the result list. -/
inductive SentMsg where
  | yieldMsg : PyVal → List Val → SentMsg
deriving DecidableEq, Repr

/-- The observable effects of one `_handle_message` call: the updated
registry, the messages sent on the connection, the messages put on the
handoff queue `_message_queue`, the local entrypoint invocations
performed (name, positional arguments, keyword arguments), and the
session id recorded on WELCOME. -/
structure HandleResult where
  registry : Registry
  sent : List SentMsg
  queued : List RawMessage
  calls : List (String × List Val × List (String × Val))
  sessionSet : Option PyVal
deriving DecidableEq, Repr

/-- A result with no effect beyond keeping the registry. -/
def noEffect (reg : Registry) : HandleResult :=
  { registry := reg, sent := [], queued := [], calls := [], sessionSet := none }

/-- Splatting `*payload` into a call: the payload must be a list.  A
dictionary or an integer raises `TypeError` in Python; a string would
iterate per character, a corner the wire protocol never produces and
which the embedding also reports as `TypeError`. -/
def asArgList : PyVal → Except PyExc (List Val)
  | .vlist xs => .ok xs
  | _ => .error .typeError

/-- Splatting `**payload` into a call: the payload must be a mapping. -/
def asKwDict : PyVal → Except PyExc (List (String × Val))
  | .vdict xs => .ok xs
  | _ => .error .typeError

/-- Each element handed to `", ".join(...)` must be a string, else
Python raises `TypeError`. -/
def valsToStrs : List Val → Except PyExc (List String)
  | [] => .ok []
  | .str s :: rest => (valsToStrs rest).map (fun ss => s :: ss)
  | _ :: _ => .error .typeError

/-- The expression `", ".join(errors)` of the ERROR branch: joins a list
of strings; joining a string joins its characters; anything else raises
`TypeError`. -/
def joinComma : PyVal → Except PyExc String
  | .vlist xs => (valsToStrs xs).map (String.intercalate ", ")
  | .str s => .ok (String.intercalate ", " (s.data.map (fun c => String.mk [c])))
  | _ => .error .typeError

/-- The REGISTERED branch (`peer.py` lines 239-247): unpack
`_, request_id, registration_id`, look the request id up in
`request_map` and record the registration id.  The request map entry is
read, not deleted. -/
def handleRegistered (reg : Registry) (message : RawMessage) :
    Except PyExc HandleResult :=
  match message with
  | [_, request_id, registration_id] =>
    match mapLookup reg.request_map request_id with
    | none => .error .keyError
    | some (app, func_name) =>
      .ok (noEffect { reg with
        registration_map :=
          mapInsert reg.registration_map registration_id (app, func_name) })
  | _ => .error .valueError

/-- The SUBSCRIBED branch (`peer.py` lines 308-315): symmetric to
REGISTERED, writing `subscription_map`. -/
def handleSubscribed (reg : Registry) (message : RawMessage) :
    Except PyExc HandleResult :=
  match message with
  | [_, request_id, subscription_id] =>
    match mapLookup reg.request_map request_id with
    | none => .error .keyError
    | some (app, func_name) =>
      .ok (noEffect { reg with
        subscription_map :=
          mapInsert reg.subscription_map subscription_id (app, func_name) })
  | _ => .error .valueError

/-- Shape detection of the INVOCATION branch (`peer.py` lines 252-265):
`args = []` and `kwargs = \x7b\x7d` to start, then three nested tuple
unpacks tried in turn, each `ValueError` falling through to the next;
the last `ValueError` propagates. -/
def invocationUnpack (message : RawMessage) :
    Except PyExc (PyVal × PyVal × PyVal × PyVal) :=
  match message with
  | [_, request_id, registration_id, _details] =>
    .ok (request_id, registration_id, .vlist [], .vdict [])
  | [_, request_id, registration_id, _details, args] =>
    .ok (request_id, registration_id, args, .vdict [])
  | [_, request_id, registration_id, _details, args, kwargs] =>
    .ok (request_id, registration_id, args, kwargs)
  | _ => .error .valueError

/-- The INVOCATION branch (`peer.py` lines 249-275): detect the shape,
look up the procedure by registration id (`KeyError` when unknown),
resolve it on the peer (`AttributeError` when missing), call it with the
splatted arguments, and send one `Yield(request_id, [resp])`. -/
def handleInvocation (eps : Entrypoints) (reg : Registry)
    (message : RawMessage) : Except PyExc HandleResult :=
  match invocationUnpack message with
  | .error e => .error e
  | .ok (request_id, registration_id, args, kwargs) =>
    match mapLookup reg.registration_map registration_id with
    | none => .error .keyError
    | some (_, procedure_name) =>
      match eps procedure_name with
      | none => .error .attributeError
      | some entrypoint =>
        match asArgList args with
        | .error e => .error e
        | .ok argList =>
          match asKwDict kwargs with
          | .error e => .error e
          | .ok kwList =>
            match entrypoint argList kwList with
            | .error e => .error e
            | .ok resp =>
              .ok { registry := reg,
                    sent := [.yieldMsg request_id [resp]],
                    queued := [],
                    calls := [(procedure_name, argList, kwList)],
                    sessionSet := none }

/-- The GOODBYE branch (`peer.py` lines 277-281): unpack
`_, _, response_message`, assert the close reason is the normal one,
then put the message on the handoff queue.  A failed assert raises
before the put. -/
def handleGoodbye (reg : Registry) (message : RawMessage) :
    Except PyExc HandleResult :=
  match message with
  | [_, _, response_message] =>
    if response_message = .str "wamp.close.normal" then
      .ok { noEffect reg with queued := [message] }
    else
      .error .assertionError
  | _ => .error .valueError

/-- The RESULT branch (`peer.py` lines 283-292): unpack four fields,
evaluate `response_list[0]` (raising on an empty or unindexable value),
then put the message on the handoff queue. -/
def handleResult (reg : Registry) (message : RawMessage) :
    Except PyExc HandleResult :=
  match message with
  | [_, _request_id, _data, response_list] =>
    match response_list with
    | .vlist [] => .error .indexError
    | .vlist (_ :: _) => .ok { noEffect reg with queued := [message] }
    | .str s =>
      if s = "" then .error .indexError
      else .ok { noEffect reg with queued := [message] }
    | _ => .error .typeError
  | _ => .error .valueError

/-- The WELCOME branch (`peer.py` lines 294-301): unpack three fields
and record the session id. -/
def handleWelcome (reg : Registry) (message : RawMessage) :
    Except PyExc HandleResult :=
  match message with
  | [_, session_id, _] =>
    .ok { noEffect reg with sessionSet := some session_id }
  | _ => .error .valueError

/-- The ERROR branch (`peer.py` lines 303-306): unpack six fields, log
the error details, then raise `WampError(", ".join(errors))` right
there, inside the reader task.  Nothing is queued. -/
def handleError (message : RawMessage) : Except PyExc HandleResult :=
  match message with
  | [_, _, _, _, _, errors] =>
    match joinComma errors with
    | .error e => .error e
    | .ok joined => .error (.wampError joined)
  | _ => .error .valueError

/-- Shape detection of the EVENT branch (`peer.py` lines 322-335): a
six-field unpack tried first, a four-field unpack with empty payloads on
`ValueError`; any other length propagates `ValueError`. -/
def eventUnpack (message : RawMessage) :
    Except PyExc (PyVal × PyVal × PyVal) :=
  match message with
  | [_, subscription_id, _, _details, payload_list, payload_dict] =>
    .ok (subscription_id, payload_list, payload_dict)
  | [_, subscription_id, _, _details] =>
    .ok (subscription_id, .vlist [], .vdict [])
  | _ => .error .valueError

/-- The EVENT branch (`peer.py` lines 317-339): detect the shape, look
up the handler by subscription id (`KeyError` when unknown), resolve it
on the peer, and call it with the splatted payload.  No reply is sent
and nothing is queued. -/
def handleEvent (eps : Entrypoints) (reg : Registry)
    (message : RawMessage) : Except PyExc HandleResult :=
  match eventUnpack message with
  | .error e => .error e
  | .ok (subscription_id, payload_list, payload_dict) =>
    match mapLookup reg.subscription_map subscription_id with
    | none => .error .keyError
    | some (_, func_name) =>
      match eps func_name with
      | none => .error .attributeError
      | some entrypoint =>
        match asArgList payload_list with
        | .error e => .error e
        | .ok argList =>
          match asKwDict payload_dict with
          | .error e => .error e
          | .ok kwList =>
            match entrypoint argList kwList with
            | .error e => .error e
            | .ok _ =>
              .ok { registry := reg, sent := [], queued := [],
                    calls := [(func_name, argList, kwList)],
                    sessionSet := none }

/-- `Peer._handle_message` (`peer.py` lines 235-346): read the code from
`message[0]` (raising `IndexError` on an empty list, as Python indexing
would) and dispatch on it; an unrecognized code only logs a warning. -/
def handle_message (eps : Entrypoints) (reg : Registry)
    (message : RawMessage) : Except PyExc HandleResult :=
  match message.head? with
  | none => .error .indexError
  | some wamp_code =>
    if wamp_code = .int Message.REGISTERED then handleRegistered reg message
    else if wamp_code = .int Message.INVOCATION then
      handleInvocation eps reg message
    else if wamp_code = .int Message.GOODBYE then handleGoodbye reg message
    else if wamp_code = .int Message.RESULT then handleResult reg message
    else if wamp_code = .int Message.WELCOME then handleWelcome reg message
    else if wamp_code = .int Message.ERROR then handleError message
    else if wamp_code = .int Message.SUBSCRIBED then
      handleSubscribed reg message
    else if wamp_code = .int Message.EVENT then handleEvent eps reg message
    else .ok (noEffect reg)

/-- The reader green thread (`Peer._listen_on_connection`, lines
135-147) wraps each `_handle_message` call in a try block whose only
except clause is `(SystemExit, KeyboardInterrupt)`.  Any other exception
escaping the dispatcher propagates out of `connection_handler` and kills
the green thread. -/
def readerLoopCatches : PyExc → Bool
  | .systemExit => true
  | .keyboardInterrupt => true
  | _ => false

/-- Whether one dispatched message terminates the reader task: it does
exactly when the dispatcher raised something the reader loop does not
catch. -/
def readerTaskCrashes (r : Except PyExc HandleResult) : Bool :=
  match r with
  | .ok _ => false
  | .error e => ! readerLoopCatches e

/-- `Peer._wait_for_message` (`peer.py` lines 174-182): a busy-wait with
no timeout construct, `while q.qsize() == 0: eventlet.sleep(0)`, then
`q.get()`.  The embedding observes the queue over a finite trace of
polls: `none` means the queue was empty at that poll, `some m` means `m`
was at its head.  The loop exits only at a `some`; if every observed
poll finds the queue empty the wait is still spinning, so the result is
`none` (no timeout ever ends it). -/
def wait_for_message : List (Option RawMessage) → Option RawMessage
  | [] => none
  | none :: rest => wait_for_message rest
  | some m :: _ => some m

/-- `Peer.stop` (`peer.py` lines 363-369) after the GOODBYE has been
sent: wait (unboundedly) for a message, `assert message[0] ==
Message.GOODBYE`, then kill the reader thread and clear the session.
`none` means stop is still blocked in `_wait_for_message`;
`some (.ok ())` means the reader thread was killed and the session
cleared; `some (.error e)` means the assert (or the indexing) raised
before teardown. -/
def stop (polls : List (Option RawMessage)) : Option (Except PyExc Unit) :=
  match wait_for_message polls with
  | none => none
  | some message =>
    match message.head? with
    | none => some (.error .indexError)
    | some code =>
      if code = .int Message.GOODBYE then some (.ok ())
      else some (.error .assertionError)

/-- The outcome of `Session.begin()` as `Client.start`
(`peers/clients.py` lines 131-147) inspects it.  Modelled from the spec:
the `Abort`, `Challenge` and `Welcome` message classes of
`wampy.messages` are not under src/; per the spec, ABORT carries a
reason message (`response.message`), CHALLENGE carries an auth method,
WELCOME carries the session id, and the three WAMP codes are distinct. -/
inductive BeginResponse where
  | abort : String → BeginResponse
  | challenge : String → BeginResponse
  | welcome : Int → BeginResponse
deriving DecidableEq, Repr

/-- The message `Client.start` raises when a CHALLENGE arrives and the
environment lacks WAMPYSECRET (`peers/clients.py` lines 139-142; the
source text uses an apostrophe and double backquotes, elided here). -/
def wampySecretMessage : String :=
  "Wampy requires a clients secret to be in the environment as WAMPYSECRET"

/-- The message `Client.start` raises when a CHALLENGE arrives and the
secret is present (`peers/clients.py` line 144): the challenge itself is
not handled. -/
def challengeFailedMessage : String := "Failed to handle CHALLENGE"

/-- The response inspection of `Client.start` (`peers/clients.py` lines
134-147): ABORT raises `WelcomeAbortedError(response.message)`;
CHALLENGE raises `WampyError` — about the missing secret when
WAMPYSECRET is not in the environment, else about the unhandled
challenge; WELCOME completes the start.  `envHasWampySecret` is the
check `WAMPYSECRET in os.environ`. -/
def client_start (response : BeginResponse) (envHasWampySecret : Bool) :
    Except PyExc Unit :=
  match response with
  | .abort message => .error (.welcomeAborted message)
  | .challenge _ =>
    if envHasWampySecret then .error (.wampyError challengeFailedMessage)
    else .error (.wampyError wampySecretMessage)
  | .welcome _ => .ok ()

/-- A concrete peer for witnesses: one RPC entrypoint returning 7, one
event handler, and one entrypoint that raises. -/
def epSample : Entrypoints := fun name =>
  if name = "get_foo" then some (fun _ _ => .ok (.int 7))
  else if name = "notify" then some (fun _ _ => .ok (.int 0))
  else if name = "blow_up" then some (fun _ _ => .error (.userExc "boom"))
  else none

/-- A concrete registry for witnesses, with pending requests, granted
registrations and granted subscriptions for the sample peer. -/
def regSample : Registry :=
  { request_map := [(.int 1, ("App", "get_foo")), (.int 2, ("App", "notify"))]
    registration_map := [(.int 9, ("App", "get_foo")),
                         (.int 10, ("App", "blow_up"))]
    subscription_map := [(.int 21, ("App", "notify")),
                         (.int 22, ("App", "blow_up"))] }

/-- Lookup after dictionary assignment of the same key gives the
assigned value. -/
theorem mapLookup_mapInsert_self (m : RegMap) (k : PyVal)
    (v : Owner × String) : mapLookup (mapInsert m k v) k = some v := by
  simp [mapInsert, mapLookup]

/-- C1: an inbound INVOCATION of any of the three shapes (no arguments,
positional only, positional plus named) invokes the registered local
procedure with exactly the carried arguments and sends exactly one
YIELD whose positional result list is the one-element list holding the
single return value of the procedure. -/
theorem invocation_three_shapes (eps : Entrypoints) (reg : Registry)
    (rid regid details : PyVal) (args : List Val)
    (kwargs : List (String × Val)) (app fn : String) (f : Entrypoint)
    (hreg : mapLookup reg.registration_map regid = some (app, fn))
    (hep : eps fn = some f) :
    (∀ resp, f [] [] = .ok resp →
      handle_message eps reg [.int Message.INVOCATION, rid, regid, details] =
        .ok { registry := reg, sent := [.yieldMsg rid [resp]], queued := [],
              calls := [(fn, [], [])], sessionSet := none }) ∧
    (∀ resp, f args [] = .ok resp →
      handle_message eps reg
          [.int Message.INVOCATION, rid, regid, details, .vlist args] =
        .ok { registry := reg, sent := [.yieldMsg rid [resp]], queued := [],
              calls := [(fn, args, [])], sessionSet := none }) ∧
    (∀ resp, f args kwargs = .ok resp →
      handle_message eps reg
          [.int Message.INVOCATION, rid, regid, details, .vlist args,
           .vdict kwargs] =
        .ok { registry := reg, sent := [.yieldMsg rid [resp]], queued := [],
              calls := [(fn, args, kwargs)], sessionSet := none }) := by
  refine ⟨fun resp h => ?_, fun resp h => ?_, fun resp h => ?_⟩ <;>
    simp [handle_message, Message.INVOCATION, Message.REGISTERED,
      handleInvocation, invocationUnpack, asArgList, asKwDict, hreg, hep, h]

/-- Witness for C1 at a concrete no-argument INVOCATION against the
sample peer. -/
theorem invocation_three_shapes_witness :
    handle_message epSample regSample
        [.int Message.INVOCATION, .int 5, .int 9, .vdict []] =
      .ok { registry := regSample, sent := [.yieldMsg (.int 5) [.int 7]],
            queued := [], calls := [("get_foo", [], [])],
            sessionSet := none } :=
  (invocation_three_shapes epSample regSample (.int 5) (.int 9) (.vdict [])
      [] [] "App" "get_foo" (fun _ _ => .ok (.int 7))
      rfl rfl).1 (.int 7) rfl

/-- A registry with one pending REGISTER request, for the C2
counterexample. -/
def regPending : Registry :=
  { request_map := [(.int 1, ("App", "get_foo"))]
    registration_map := []
    subscription_map := [] }

/-- C2 counterexample: after the dispatcher handles the matching
REGISTERED message, the request_map entry for request id 1 is still
present — the code reads `Registry.request_map[request_id]` but never
deletes the entry, so the pending entry is not consumed as the claim
states. -/
theorem registered_request_entry_not_consumed :
    (handle_message epSample regPending
        [.int Message.REGISTERED, .int 1, .int 9]).map
        (fun r => mapLookup r.registry.request_map (.int 1)) =
      .ok (some ("App", "get_foo")) ∧
    ¬ (handle_message epSample regPending
        [.int Message.REGISTERED, .int 1, .int 9]).map
        (fun r => mapLookup r.registry.request_map (.int 1)) =
      .ok none := by
  have h0 : (handle_message epSample regPending
      [.int Message.REGISTERED, .int 1, .int 9]).map
      (fun r => mapLookup r.registry.request_map (.int 1)) =
      .ok (some ("App", "get_foo")) := rfl
  refine ⟨h0, fun h => ?_⟩
  rw [h0] at h
  exact Option.noConfusion (Except.ok.inj h)

/-- C2 amended: when the matching REGISTERED (respectively SUBSCRIBED)
message arrives for a pending request, registration_map (respectively
subscription_map) afterwards maps the Router-assigned id to the pending
(owner, name) pair — but the request_map entry is read, not removed:
request_map is left unchanged. -/
theorem registered_subscribed_resolve (eps : Entrypoints) (reg : Registry)
    (rid regid sid : PyVal) (app fn : String)
    (hreq : mapLookup reg.request_map rid = some (app, fn)) :
    (handle_message eps reg [.int Message.REGISTERED, rid, regid] =
      .ok (noEffect { reg with
        registration_map := mapInsert reg.registration_map regid (app, fn) }) ∧
     mapLookup (mapInsert reg.registration_map regid (app, fn)) regid =
       some (app, fn)) ∧
    (handle_message eps reg [.int Message.SUBSCRIBED, rid, sid] =
      .ok (noEffect { reg with
        subscription_map := mapInsert reg.subscription_map sid (app, fn) }) ∧
     mapLookup (mapInsert reg.subscription_map sid (app, fn)) sid =
       some (app, fn)) := by
  refine ⟨⟨?_, mapLookup_mapInsert_self ..⟩, ⟨?_, mapLookup_mapInsert_self ..⟩⟩ <;>
    simp [handle_message, Message.REGISTERED, Message.INVOCATION,
      Message.GOODBYE, Message.RESULT, Message.WELCOME, Message.ERROR,
      Message.SUBSCRIBED, handleRegistered, handleSubscribed, hreq]

/-- Witness for C2 at the sample registry: REGISTERED for pending
request 1 records registration 9 for get_foo, SUBSCRIBED for the same
request records subscription 30, and request_map is untouched. -/
theorem registered_subscribed_resolve_witness :
    handle_message epSample regSample
        [.int Message.REGISTERED, .int 1, .int 9] =
      .ok (noEffect { regSample with
        registration_map :=
          mapInsert regSample.registration_map (.int 9) ("App", "get_foo") }) ∧
    mapLookup (mapInsert regSample.registration_map (.int 9)
        ("App", "get_foo")) (.int 9) = some ("App", "get_foo") :=
  (registered_subscribed_resolve epSample regSample (.int 1) (.int 9)
      (.int 30) "App" "get_foo" rfl).1

/-- C3: an inbound EVENT invokes the subscription handler looked up by
subscription id exactly once, with the positional payload as positional
arguments and the named payload as named arguments; an EVENT without
payload fields invokes the handler with no arguments; no reply message
is sent and nothing is queued. -/
theorem event_dispatch (eps : Entrypoints) (reg : Registry)
    (sid pub details : PyVal) (plist : List Val)
    (pdict : List (String × Val)) (app fn : String) (f : Entrypoint)
    (hsub : mapLookup reg.subscription_map sid = some (app, fn))
    (hep : eps fn = some f) :
    (∀ v, f plist pdict = .ok v →
      handle_message eps reg
          [.int Message.EVENT, sid, pub, details, .vlist plist,
           .vdict pdict] =
        .ok { registry := reg, sent := [], queued := [],
              calls := [(fn, plist, pdict)], sessionSet := none }) ∧
    (∀ v, f [] [] = .ok v →
      handle_message eps reg [.int Message.EVENT, sid, pub, details] =
        .ok { registry := reg, sent := [], queued := [],
              calls := [(fn, [], [])], sessionSet := none }) := by
  refine ⟨fun v h => ?_, fun v h => ?_⟩ <;>
    simp [handle_message, Message.REGISTERED, Message.INVOCATION,
      Message.GOODBYE, Message.RESULT, Message.WELCOME, Message.ERROR,
      Message.SUBSCRIBED, Message.EVENT, handleEvent, eventUnpack,
      asArgList, asKwDict, hsub, hep, h]

/-- Witness for C3: EVENT(21, 101, details, [1, 2], empty dict) makes the
sample peer invoke notify exactly once with positional arguments 1 and
2, sending nothing. -/
theorem event_dispatch_witness :
    handle_message epSample regSample
        [.int Message.EVENT, .int 21, .int 101, .vdict [],
         .vlist [.int 1, .int 2], .vdict []] =
      .ok { registry := regSample, sent := [], queued := [],
            calls := [("notify", [.int 1, .int 2], [])],
            sessionSet := none } :=
  (event_dispatch epSample regSample (.int 21) (.int 101) (.vdict [])
      [.int 1, .int 2] [] "App" "notify" (fun _ _ => .ok (.int 0))
      rfl rfl).1 (.int 0) rfl

/-- The empty registry: no pending requests, registrations or
subscriptions. -/
def regEmpty : Registry :=
  { request_map := [], registration_map := [], subscription_map := [] }

/-- C4 counterexample: an INVOCATION for registration id 99, which no
registry entry covers, makes the dispatcher raise Python KeyError — the
bare dictionary lookup, not a wampy protocol error — and since the
reader loop catches only SystemExit and KeyboardInterrupt, the reader
task terminates. -/
theorem unknown_registration_keyerror_crashes :
    handle_message epSample regEmpty
        [.int Message.INVOCATION, .int 5, .int 99, .vdict []] =
      .error .keyError ∧
    readerTaskCrashes (handle_message epSample regEmpty
        [.int Message.INVOCATION, .int 5, .int 99, .vdict []]) = true ∧
    ¬ PyExc.keyError = .wampError "wamp.error.no_such_registration" := by
  refine ⟨rfl, rfl, fun h => ?_⟩
  exact PyExc.noConfusion h

/-- C4 amended: an INVOCATION (or EVENT) whose registration id (or
subscription id) is absent from the corresponding registry map fails
with Python KeyError, which the reader loop does not catch, so the
reader task terminates. -/
theorem unknown_id_keyerror (eps : Entrypoints) (reg : Registry)
    (rid regid sid pub details : PyVal)
    (hreg : mapLookup reg.registration_map regid = none)
    (hsub : mapLookup reg.subscription_map sid = none) :
    handle_message eps reg [.int Message.INVOCATION, rid, regid, details] =
      .error .keyError ∧
    handle_message eps reg [.int Message.EVENT, sid, pub, details] =
      .error .keyError ∧
    readerTaskCrashes (.error .keyError) = true := by
  refine ⟨?_, ?_, rfl⟩ <;>
    simp [handle_message, Message.REGISTERED, Message.INVOCATION,
      Message.GOODBYE, Message.RESULT, Message.WELCOME, Message.ERROR,
      Message.SUBSCRIBED, Message.EVENT, handleInvocation, invocationUnpack,
      handleEvent, eventUnpack, hreg, hsub]

/-- Witness for C4 against the empty registry at ids 99 and 77. -/
theorem unknown_id_keyerror_witness :
    handle_message epSample regEmpty
        [.int Message.INVOCATION, .int 5, .int 99, .vdict []] =
      .error .keyError ∧
    handle_message epSample regEmpty
        [.int Message.EVENT, .int 77, .int 101, .vdict []] =
      .error .keyError ∧
    readerTaskCrashes (.error .keyError) = true :=
  unknown_id_keyerror epSample regEmpty (.int 5) (.int 99) (.int 77)
    (.int 101) (.vdict []) rfl rfl

/-- C5 counterexample: with the Router silent — one hundred consecutive
polls find the handoff queue empty and no GOODBYE ever arrives — stop is
still blocked inside the busy-wait: no timeout ends the wait and the
session is not torn down. -/
theorem stop_still_blocked_after_hundred_polls :
    stop (List.replicate 100 none) = none := rfl

/-- C5 amended: the wait inside stop has no timeout: however many polls
find the queue empty, stop stays blocked and the session is not torn
down; teardown (reader task killed, session cleared) happens only once a
message arrives, here the GOODBYE reply.  The busy-wait never times
out, so teardown can block indefinitely when the GOODBYE of the peer
never arrives. -/
theorem stop_unbounded_wait :
    (∀ n, stop (List.replicate n none) = none) ∧
    (∀ pre rest details reason,
      stop (List.replicate pre none ++
          some [.int Message.GOODBYE, details, .str reason] :: rest) =
        some (.ok ())) := by
  have hwait : ∀ n, wait_for_message (List.replicate n none) = none := by
    intro n
    induction n with
    | zero => rfl
    | succ k ih => simpa [List.replicate_succ, wait_for_message] using ih
  have hskip : ∀ n (rest : List (Option RawMessage)),
      wait_for_message (List.replicate n none ++ rest) =
        wait_for_message rest := by
    intro n rest
    induction n with
    | zero => rfl
    | succ k ih => simpa [List.replicate_succ, wait_for_message] using ih
  constructor
  · intro n
    simp [stop, hwait n]
  · intro pre rest details reason
    simp [stop, hskip pre, wait_for_message, Message.GOODBYE]

/-- C6 counterexample: the sample procedure blow_up, registered under
registration id 10, raises when invoked; the dispatcher does not catch
the exception — `_handle_message` raises it onward, so no ERROR (nor
YIELD) reply is produced — and the reader loop, catching only SystemExit
and KeyboardInterrupt, lets it kill the reader task. -/
theorem procedure_exception_crashes_reader :
    handle_message epSample regSample
        [.int Message.INVOCATION, .int 5, .int 10, .vdict []] =
      .error (.userExc "boom") ∧
    readerTaskCrashes (handle_message epSample regSample
        [.int Message.INVOCATION, .int 5, .int 10, .vdict []]) = true :=
  ⟨rfl, rfl⟩

/-- C6 amended: an exception raised by the locally registered procedure
(on INVOCATION) or event handler (on EVENT) is not caught at the
dispatch boundary: it propagates out of the dispatcher, so no ERROR
reply is sent back to the Router, and whenever the exception is not one
of the two the reader loop catches, the reader task terminates. -/
theorem dispatch_exception_uncaught (eps : Entrypoints) (reg : Registry)
    (rid regid sid pub details : PyVal) (app fn : String) (f : Entrypoint)
    (e : PyExc)
    (hreg : mapLookup reg.registration_map regid = some (app, fn))
    (hsub : mapLookup reg.subscription_map sid = some (app, fn))
    (hep : eps fn = some f) (hf : f [] [] = .error e) :
    handle_message eps reg [.int Message.INVOCATION, rid, regid, details] =
      .error e ∧
    handle_message eps reg [.int Message.EVENT, sid, pub, details] =
      .error e ∧
    (readerLoopCatches e = false →
      readerTaskCrashes (.error e) = true) := by
  refine ⟨?_, ?_, fun h => by simp [readerTaskCrashes, h]⟩ <;>
    simp [handle_message, Message.REGISTERED, Message.INVOCATION,
      Message.GOODBYE, Message.RESULT, Message.WELCOME, Message.ERROR,
      Message.SUBSCRIBED, Message.EVENT, handleInvocation, invocationUnpack,
      handleEvent, eventUnpack, asArgList, asKwDict, hreg, hsub, hep, hf]

/-- Witness for C6: blow_up is registered as registration 10 and
subscription 22 of the sample registry, and its exception escapes both
dispatch paths and crashes the reader. -/
theorem dispatch_exception_uncaught_witness :
    handle_message epSample regSample
        [.int Message.INVOCATION, .int 5, .int 10, .vdict []] =
      .error (.userExc "boom") ∧
    handle_message epSample regSample
        [.int Message.EVENT, .int 22, .int 101, .vdict []] =
      .error (.userExc "boom") ∧
    (readerLoopCatches (.userExc "boom") = false →
      readerTaskCrashes (.error (.userExc "boom")) = true) :=
  dispatch_exception_uncaught epSample regSample (.int 5) (.int 10)
    (.int 22) (.int 101) (.vdict []) "App" "blow_up"
    (fun _ _ => .error (.userExc "boom")) (.userExc "boom") rfl rfl rfl rfl

/-- C7 counterexample: an inbound ERROR message makes the dispatcher
raise WampError with the joined details right inside the reader task —
`_handle_message` returns no ok result, so nothing is placed on the
handoff queue for the blocked caller, and the uncaught WampError kills
the reader task. -/
theorem error_message_raises_in_reader :
    handle_message epSample regSample
        [.int Message.ERROR, .int 48, .int 9001, .vdict [],
         .str "wamp.error.no_such_procedure",
         .vlist [.str "no such procedure"]] =
      .error (.wampError "no such procedure") ∧
    readerTaskCrashes (handle_message epSample regSample
        [.int Message.ERROR, .int 48, .int 9001, .vdict [],
         .str "wamp.error.no_such_procedure",
         .vlist [.str "no such procedure"]]) = true :=
  ⟨rfl, rfl⟩

/-- Joining a list of strings element by element succeeds and yields the
same list. -/
theorem valsToStrs_map_str (errs : List String) :
    valsToStrs (errs.map Val.str) = .ok errs := by
  induction errs with
  | nil => rfl
  | cons s rest ih => simp [valsToStrs, ih, Except.map]

/-- C7 amended: for every inbound ERROR message the dispatcher logs the
Router-supplied details and then raises WampError carrying the
comma-joined details inside the reader task itself, which the reader
loop does not catch; nothing is delivered to the handoff queue, so the
blocked caller is not unblocked by the ERROR. -/
theorem error_branch_raises_wamperror (eps : Entrypoints) (reg : Registry)
    (a b c d : PyVal) (errs : List String) :
    handle_message eps reg
        [.int Message.ERROR, a, b, c, d, .vlist (errs.map .str)] =
      .error (.wampError (String.intercalate ", " errs)) ∧
    readerTaskCrashes
        (.error (.wampError (String.intercalate ", " errs))) = true := by
  refine ⟨?_, rfl⟩
  simp [handle_message, Message.REGISTERED, Message.INVOCATION,
    Message.GOODBYE, Message.RESULT, Message.WELCOME, Message.ERROR,
    handleError, joinComma, valsToStrs_map_str, Except.map]

/-- C8: when the Router answers the HELLO with ABORT, Client.start
raises WelcomeAbortedError carrying the reason message of the ABORT,
whatever the rest of the environment. -/
theorem start_abort_raises_welcome_aborted (reason : String)
    (envHasWampySecret : Bool) :
    client_start (.abort reason) envHasWampySecret =
      .error (.welcomeAborted reason) := rfl

/-- C9: when the Router answers with CHALLENGE and the environment does
not hold the WAMPYSECRET variable, Client.start fails with the
configuration error — WampyError carrying the message that the secret
must be configured in the environment. -/
theorem start_challenge_without_secret (method : String) :
    client_start (.challenge method) false =
      .error (.wampyError wampySecretMessage) := rfl

/-- C10: the dispatcher asserts that the reason of an inbound GOODBYE
equals wamp.close.normal before putting it on the handoff queue; a
GOODBYE with the normal reason is queued for the caller blocked in stop,
while any other reason raises AssertionError before the put — the
message is never delivered, and the uncaught AssertionError terminates
the reader task. -/
theorem goodbye_assert_normal_close (eps : Entrypoints) (reg : Registry)
    (details reason : PyVal) :
    handle_message eps reg
        [.int Message.GOODBYE, details, .str "wamp.close.normal"] =
      .ok { registry := reg, sent := [],
            queued := [[.int Message.GOODBYE, details,
                        .str "wamp.close.normal"]],
            calls := [], sessionSet := none } ∧
    (¬ reason = .str "wamp.close.normal" →
      handle_message eps reg [.int Message.GOODBYE, details, reason] =
        .error .assertionError ∧
      readerTaskCrashes (.error .assertionError) = true) := by
  constructor
  · simp [handle_message, Message.REGISTERED, Message.INVOCATION,
      Message.GOODBYE, handleGoodbye, noEffect]
  · intro h
    refine ⟨?_, rfl⟩
    simp [handle_message, Message.REGISTERED, Message.INVOCATION,
      Message.GOODBYE, handleGoodbye, h]

/-- Witness for C10: a GOODBYE with reason wamp.close.killed raises the
assertion, while the normal close is queued. -/
theorem goodbye_assert_normal_close_witness :
    (handle_message epSample regSample
        [.int Message.GOODBYE, .vdict [], .str "wamp.close.normal"] =
      .ok { registry := regSample, sent := [],
            queued := [[.int Message.GOODBYE, .vdict [],
                        .str "wamp.close.normal"]],
            calls := [], sessionSet := none }) ∧
    (handle_message epSample regSample
        [.int Message.GOODBYE, .vdict [], .str "wamp.close.killed"] =
      .error .assertionError ∧
    readerTaskCrashes (.error .assertionError) = true) := by
  have h := goodbye_assert_normal_close epSample regSample (.vdict [])
    (.str "wamp.close.killed")
  exact ⟨h.1, h.2 (by decide)⟩

end Wampy
